import Mathlib

/-!
Verification development for the cellular-automata repository.

The repository sources under verification are `src/main.cpp` (driver loop,
logging, signal handling) and `src/config.cpp` (command-line configuration).
The evolution engine itself (`AutomataBase::evolve` etc.) is not among the
given sources; where a claim needs it, it is modelled from the spec and the
corresponding definitions carry a `Modelled from the spec:` doc comment.

Machine integers (`unsigned int`, `unsigned long`) are modelled as `Nat`:
none of the verified properties exercises wrap-around, and the counters
involved (`stats::iterations`, tick counts) only ever grow.  The C++ `float`
probability knobs are modelled as `Rat`; the verified claims about them only
concern whether configuration loading inspects their range at all, never
floating-point arithmetic.
-/

namespace Cellular

/-! ## Configuration (`src/config.cpp`)

`config.cpp` defines a namespace of globals with defaults (lines 10-24) and
`load_cmd` (lines 27-89), which parses the command line into a boost
`variables_map` and then overwrites each global for which the option was
present.  We model the parsed `variables_map` as the `Cmd` structure: a flag
field is `true` exactly when `vm.count(...)` is nonzero, and a valued option
is `some v` exactly when it was supplied with value `v`. -/

/-- The `config::` globals of `src/config.cpp` (lines 10-24). -/
structure Config where
  width : Nat
  height : Nat
  rows : Nat
  cols : Nat
  render : Bool
  renderDelayMs : Nat
  fillProb : Rat
  virtualFillProb : Rat
  maxIterations : Nat
  cpuOnly : Bool
  patternFileName : String
  startPaused : Bool
  noDownsample : Bool
deriving DecidableEq, Repr

/-- Default values of the `config::` globals (`src/config.cpp` lines 10-24). -/
def defaultConfig : Config :=
  { width := 600
    height := 600
    rows := 1200
    cols := 1200
    render := false
    renderDelayMs := 0
    fillProb := 2/10
    virtualFillProb := 0
    maxIterations := 0
    cpuOnly := false
    patternFileName := "random"
    startPaused := true
    noDownsample := false }

/-- The parsed command line (boost `variables_map`) seen by `load_cmd`:
which options are present and, for valued options, their parsed values. -/
structure Cmd where
  help : Bool
  width : Option Nat
  height : Option Nat
  rows : Option Nat
  cols : Option Nat
  render : Bool
  renderDelayMs : Option Nat
  fillProb : Option Rat
  virtualFillProb : Option Rat
  maxIterations : Option Nat
  cpuOnly : Bool
  noDownsample : Bool
  patternFileName : Option String
  start : Bool
deriving DecidableEq, Repr

/-- A command line supplying no options at all. -/
def emptyCmd : Cmd :=
  { help := false
    width := none
    height := none
    rows := none
    cols := none
    render := false
    renderDelayMs := none
    fillProb := none
    virtualFillProb := none
    maxIterations := none
    cpuOnly := false
    noDownsample := false
    patternFileName := none
    start := false }

/-- `src/config.cpp` lines 60-61: `if (vm.count("width")) width = ...`. -/
def upd_width (vm : Cmd) (c : Config) : Config :=
  match vm.width with | some v => { c with width := v } | none => c

/-- `src/config.cpp` lines 62-63: `if (vm.count("height")) height = ...`. -/
def upd_height (vm : Cmd) (c : Config) : Config :=
  match vm.height with | some v => { c with height := v } | none => c

/-- `src/config.cpp` lines 64-65: `if (vm.count("rows")) rows = ...`. -/
def upd_rows (vm : Cmd) (c : Config) : Config :=
  match vm.rows with | some v => { c with rows := v } | none => c

/-- `src/config.cpp` lines 66-67: `if (vm.count("cols")) cols = ...`. -/
def upd_cols (vm : Cmd) (c : Config) : Config :=
  match vm.cols with | some v => { c with cols := v } | none => c

/-- `src/config.cpp` lines 68-69: `if (vm.count("render")) render = true`. -/
def upd_render (vm : Cmd) (c : Config) : Config :=
  if vm.render then { c with render := true } else c

/-- `src/config.cpp` lines 70-71: `if (vm.count("render-delay")) ...`. -/
def upd_delay (vm : Cmd) (c : Config) : Config :=
  match vm.renderDelayMs with | some v => { c with renderDelayMs := v } | none => c

/-- `src/config.cpp` lines 72-73: `if (vm.count("fill-probability")) ...`. -/
def upd_fillProb (vm : Cmd) (c : Config) : Config :=
  match vm.fillProb with | some v => { c with fillProb := v } | none => c

/-- `src/config.cpp` lines 74-75: `if (vm.count("virtual-fill-probability")) ...`. -/
def upd_virtualFillProb (vm : Cmd) (c : Config) : Config :=
  match vm.virtualFillProb with | some v => { c with virtualFillProb := v } | none => c

/-- `src/config.cpp` lines 76-77: `if (vm.count("max")) maxIterations = ...`. -/
def upd_max (vm : Cmd) (c : Config) : Config :=
  match vm.maxIterations with | some v => { c with maxIterations := v } | none => c

/-- `src/config.cpp` lines 78-79: `if (vm.count("cpu")) cpuOnly = true`. -/
def upd_cpu (vm : Cmd) (c : Config) : Config :=
  if vm.cpuOnly then { c with cpuOnly := true } else c

/-- `src/config.cpp` lines 80-81: `if (vm.count("file")) patternFileName = ...`. -/
def upd_file (vm : Cmd) (c : Config) : Config :=
  match vm.patternFileName with | some v => { c with patternFileName := v } | none => c

/-- `src/config.cpp` lines 82-85: `if (vm.count("start") || !render) startPaused = false`. -/
def upd_start (vm : Cmd) (c : Config) : Config :=
  if vm.start || !c.render then { c with startPaused := false } else c

/-- `src/config.cpp` lines 86-88:
`if (vm.count("no-downsample") || (width == cols && height == rows)) noDownsample = true`. -/
def upd_noDownsample (vm : Cmd) (c : Config) : Config :=
  if vm.noDownsample || (c.width == c.cols && c.height == c.rows)
  then { c with noDownsample := true } else c

/-- The sequence of conditional assignments of `config::load_cmd`
(`src/config.cpp` lines 60-88, in source order), after the `--help` early
exit. -/
def load_cmd_assign (vm : Cmd) : Config :=
  upd_noDownsample vm (upd_start vm (upd_file vm (upd_cpu vm (upd_max vm
    (upd_virtualFillProb vm (upd_fillProb vm (upd_delay vm (upd_render vm
      (upd_cols vm (upd_rows vm (upd_height vm (upd_width vm defaultConfig))))))))))))

/-- `config::load_cmd` (`src/config.cpp` lines 27-89): on `--help` it prints
the usage text and calls `exit(0)` (modelled as `none`); otherwise it performs
the conditional assignments and the program continues with the resulting
configuration. -/
def load_cmd (vm : Cmd) : Option Config :=
  if vm.help then none else some (load_cmd_assign vm)

/-! ## Grid and evolution engine

The engine sources (`automata_base_cpu.hpp` etc.) are not among the given
files; the definitions below are modelled from the spec (sections 3, 4.1 and
4.2). -/

/-- Modelled from the spec: the grid data model of section 3 — `rows x cols`
binary cells on a toroidal topology, stored row-major (the missing GridStore
component). -/
structure Grid where
  rows : Nat
  cols : Nat
  cells : List Bool
deriving DecidableEq, Repr

/-- Modelled from the spec: toroidal read (section 4.1) — index computed as
`((row mod rows) + rows) mod rows`, likewise for columns, so negative
neighbor offsets wrap to the far edge (the missing GridStore read
primitive). -/
def Grid.getT (g : Grid) (r c : Int) : Bool :=
  if g.rows = 0 ∨ g.cols = 0 then false
  else
    let ri := (((r % (g.rows : Int)) + g.rows) % g.rows).toNat
    let ci := (((c % (g.cols : Int)) + g.cols) % g.cols).toNat
    g.cells.getD (ri * g.cols + ci) false

/-- The eight neighbor offsets of the Moore neighborhood. -/
def neighborOffsets : List (Int × Int) :=
  [(-1, -1), (-1, 0), (-1, 1), (0, -1), (0, 1), (1, -1), (1, 0), (1, 1)]

/-- Modelled from the spec: number of live toroidal neighbors of a cell
(section 4.2). -/
def Grid.neighborCount (g : Grid) (r c : Nat) : Nat :=
  neighborOffsets.foldl
    (fun acc o => acc + (if g.getT ((r : Int) + o.1) ((c : Int) + o.2) then 1 else 0)) 0

/-- Modelled from the spec: the majority rule (section 4.2) — a live cell
survives with exactly 2 or 3 live neighbors, a dead cell is born with
exactly 3. -/
def ruleNext (alive : Bool) (n : Nat) : Bool :=
  if alive then decide (n = 2 ∨ n = 3) else decide (n = 3)

/-- Modelled from the spec: the next state of one cell (section 4.2) — the
majority rule, then a cell left dead by the rule is independently
re-activated when its per-cell noise draw fires; a cell the rule made alive
is never perturbed.  `draw r c` is the outcome of the stable per-cell random
draw (the `virtualFillProb` Bernoulli trial keyed by generation, coordinate
and seed). -/
def nextCell (draw : Nat → Nat → Bool) (g : Grid) (r c : Nat) : Bool :=
  let afterRule := ruleNext (g.getT r c) (g.neighborCount r c)
  if afterRule then true else draw r c

/-- One cell of the single evolve pass: appends the cell's next state to the
accumulated next buffer and, when `countAlive` is set, accumulates the live
count in the same pass (section 4.2: the count is a reduction fused into the
pass, not a second traversal). -/
def evolveStep (draw : Nat → Nat → Bool) (g : Grid) (countAlive : Bool)
    (acc : List Bool × Nat) (idx : Nat) : List Bool × Nat :=
  let nxt := nextCell draw g (idx / g.cols) (idx % g.cols)
  (acc.1 ++ [nxt], if countAlive && nxt then acc.2 + 1 else acc.2)

/-- Modelled from the spec: `evolve(countAlive) -> optional<liveCellCount>`
(section 4.2, the missing EvolutionEngine) — one pass over all cells reading
the current buffer, producing the next buffer, optionally counting live
cells in the same pass; the returned grid is the swapped-in next buffer. -/
def evolve (draw : Nat → Nat → Bool) (g : Grid) (countAlive : Bool) :
    Grid × Option Nat :=
  let r := (List.range (g.rows * g.cols)).foldl (evolveStep draw g countAlive) ([], 0)
  (⟨g.rows, g.cols, r.1⟩, if countAlive then some r.2 else none)

/-- `n` whole generations starting at generation index `gen`
(the per-cell noise draw is keyed by the generation index, spec section
4.2's determinism note). -/
def evolveIter (draw : Nat → Nat → Nat → Bool) : Nat → Nat → Grid → Grid
  | _, 0, g => g
  | gen, n + 1, g => evolveIter draw (gen + 1) n (evolve (draw gen) g false).1

/-! ## Driver loop (`src/main.cpp`)

We model the headless build of `main.cpp` (the code outside the
`#ifndef HEADLESS_ONLY` guards): `loop` (lines 152-220), `should_log`
(lines 222-232), `live_log` (lines 234-337) and `sigint_handler`
(lines 339-342), together with the `while (gLooping) loop();` driver
(lines 129-130).

The mutable process state is the grid held by `gAutomata`, the counter
`stats::iterations`, and the globals of lines 57-62.  `steady_clock` time
points are modelled as `Nat` nanosecond stamps supplied per iteration
(`StepInput.now`), and the measured body duration as `StepInput.loopNs`;
the clock is monotone, so `now` is at least every previously recorded
stamp.  `ulong` counters are modelled as `Nat`: `stats::iterations` only
grows and always bounds `gLastIterationCount` from above, so the unsigned
subtraction in `should_log` never wraps.

A SIGINT may be delivered at any machine instruction.  The handler writes
only `gLooping` (and prints a newline), and the loop body reads `gLooping`
only at its final check (line 211); hence every delivery is observationally
equivalent to one of two cases, which `StepInput` records: delivery before
the body's single `gLooping` read (`sigDuring`), or delivery after it,
which the `while` condition observes before the next body
(`sigBefore` of the following step). -/

/-- The mutable driver state: the grid owned by the automata object,
`stats::iterations`, and the globals of `src/main.cpp` lines 57-62. -/
structure LoopState where
  grid : Grid
  iterations : Nat
  gLooping : Bool
  gLastIterationCount : Nat
  gIterationsPerSecond : Nat
  gNsBetweenSeconds : Nat
  gLastPrintClock : Nat
deriving DecidableEq, Repr

/-- Per-iteration environment inputs: the clock stamp read during the body,
the measured body duration, and where (if at all) a SIGINT is delivered
relative to this iteration. -/
structure StepInput where
  now : Nat
  loopNs : Nat
  sigBefore : Bool
  sigDuring : Bool
deriving DecidableEq, Repr

/-- `sigint_handler` (`src/main.cpp` lines 339-342): sets `gLooping = false`
(its only write to driver state; it also prints a newline). -/
def sigint_handler (s : LoopState) : LoopState :=
  { s with gLooping := false }

/-- `should_log` (`src/main.cpp` lines 222-232): recomputes
`gIterationsPerSecond = stats::iterations - gLastIterationCount`, then
returns `false` unless that is positive and at least one full second
(`duration_cast<seconds>(...).count() >= 1`, i.e. at least 10^9 ns) has
elapsed since `gLastPrintClock`. -/
def should_log (s : LoopState) (now : Nat) : Bool × LoopState :=
  let s := { s with gIterationsPerSecond := s.iterations - s.gLastIterationCount }
  if s.gIterationsPerSecond ≤ 0 ∨ now - s.gLastPrintClock < 1000000000
  then (false, s)
  else (true, s)

/-- `src/main.cpp` line 163: `logEnabled = !config::benchmarkMode &&
should_log()` — with C++ short-circuiting, `should_log` (and its write to
`gIterationsPerSecond`) runs only when benchmark mode is off. -/
def logCheck (bench : Bool) (s : LoopState) (now : Nat) : Bool × LoopState :=
  if bench then (false, s) else should_log s now

/-- `live_log` (`src/main.cpp` lines 234-337): appends
`gNsBetweenSeconds / gIterationsPerSecond` (line 247) to the log line —
returned here as the second component — prints, and resets
`gNsBetweenSeconds`, `gLastIterationCount` and `gLastPrintClock`
(lines 334-336). -/
def live_log (s : LoopState) (now : Nat) : LoopState × Nat :=
  ({ s with
      gNsBetweenSeconds := 0
      gLastIterationCount := s.iterations
      gLastPrintClock := now },
   s.gNsBetweenSeconds / s.gIterationsPerSecond)

/-- The state right before `loop`'s `if (logEnabled) live_log();`
(`src/main.cpp` lines 196-207): after `gAutomata->evolve(logEnabled)`,
`++stats::iterations` (lines 196-197) and the accumulation of the measured
body time into `gNsBetweenSeconds` (lines 204-206). -/
def preLiveLogState (bench : Bool) (draw : Nat → Nat → Nat → Bool)
    (i : StepInput) (s : LoopState) : LoopState :=
  let s1 := (logCheck bench s i.now).2
  { s1 with
      grid := (evolve (draw s1.iterations) s1.grid (logCheck bench s i.now).1).1
      iterations := s1.iterations + 1
      gNsBetweenSeconds := s1.gNsBetweenSeconds + i.loopNs }

/-- The state after `loop`'s `if (logEnabled) live_log();`
(`src/main.cpp` lines 207-208). -/
def postLogState (bench : Bool) (draw : Nat → Nat → Nat → Bool)
    (i : StepInput) (s : LoopState) : LoopState :=
  if (logCheck bench s i.now).1
  then (live_log (preLiveLogState bench draw i s) i.now).1
  else preLiveLogState bench draw i s

/-- One call of `loop` (`src/main.cpp` lines 152-220, headless path):
compute `logEnabled`, evolve and count the iteration, accumulate the body
time, run `live_log` when logging, then the boundary check of lines
210-219, which sets `gLooping = false` when it was already cleared or the
configured maximum was reached.  `i.sigDuring` delivers the SIGINT handler
before the boundary check's read of `gLooping`. -/
def loopStep (bench : Bool) (maxIter : Nat) (draw : Nat → Nat → Nat → Bool)
    (i : StepInput) (s : LoopState) : LoopState :=
  let s4 := postLogState bench draw i s
  let s5 := if i.sigDuring then sigint_handler s4 else s4
  if !s5.gLooping ∨ (0 < maxIter ∧ maxIter ≤ s5.iterations)
  then { s5 with gLooping := false } else s5

/-- The driver `while (gLooping) loop();` (`src/main.cpp` lines 129-130)
over a finite schedule of per-iteration inputs.  `i.sigBefore` delivers the
SIGINT handler before the `while` condition is evaluated. -/
def run (bench : Bool) (maxIter : Nat) (draw : Nat → Nat → Nat → Bool) :
    List StepInput → LoopState → LoopState
  | [], s => s
  | i :: rest, s =>
      let s0 := if i.sigBefore then sigint_handler s else s
      if s0.gLooping then run bench maxIter draw rest (loopStep bench maxIter draw i s0)
      else s0

/-! ## Startup sequence (`src/main.cpp` `main`) -/

/-- The startup actions of `main` relevant to pattern loading
(`src/main.cpp` lines 116-130). -/
inductive MainEvent where
  | loadPatternEv (name : String)
  | prepareEv
  | loopStartEv
deriving DecidableEq, Repr

/-- `main`'s startup sequence (`src/main.cpp` lines 116-130): the
conditional `load_pattern` call of lines 116-117, then
`gAutomata->prepare()` (line 120), then the evolution loop starts. -/
def mainStartup (c : Config) : List MainEvent :=
  (if c.patternFileName ≠ "random" then [MainEvent.loadPatternEv c.patternFileName] else [])
    ++ [MainEvent.prepareEv, MainEvent.loopStartEv]

/-! ## Characterization of the configuration assignments -/

theorem upd_width_eq (vm : Cmd) (c : Config) :
    upd_width vm c = { c with width := vm.width.getD c.width } := by
  cases h : vm.width <;> simp [upd_width, h]

theorem upd_height_eq (vm : Cmd) (c : Config) :
    upd_height vm c = { c with height := vm.height.getD c.height } := by
  cases h : vm.height <;> simp [upd_height, h]

theorem upd_rows_eq (vm : Cmd) (c : Config) :
    upd_rows vm c = { c with rows := vm.rows.getD c.rows } := by
  cases h : vm.rows <;> simp [upd_rows, h]

theorem upd_cols_eq (vm : Cmd) (c : Config) :
    upd_cols vm c = { c with cols := vm.cols.getD c.cols } := by
  cases h : vm.cols <;> simp [upd_cols, h]

theorem upd_render_eq (vm : Cmd) (c : Config) :
    upd_render vm c = { c with render := vm.render || c.render } := by
  cases h : vm.render <;> simp [upd_render, h]

theorem upd_delay_eq (vm : Cmd) (c : Config) :
    upd_delay vm c = { c with renderDelayMs := vm.renderDelayMs.getD c.renderDelayMs } := by
  cases h : vm.renderDelayMs <;> simp [upd_delay, h]

theorem upd_fillProb_eq (vm : Cmd) (c : Config) :
    upd_fillProb vm c = { c with fillProb := vm.fillProb.getD c.fillProb } := by
  cases h : vm.fillProb <;> simp [upd_fillProb, h]

theorem upd_virtualFillProb_eq (vm : Cmd) (c : Config) :
    upd_virtualFillProb vm c
      = { c with virtualFillProb := vm.virtualFillProb.getD c.virtualFillProb } := by
  cases h : vm.virtualFillProb <;> simp [upd_virtualFillProb, h]

theorem upd_max_eq (vm : Cmd) (c : Config) :
    upd_max vm c = { c with maxIterations := vm.maxIterations.getD c.maxIterations } := by
  cases h : vm.maxIterations <;> simp [upd_max, h]

theorem upd_cpu_eq (vm : Cmd) (c : Config) :
    upd_cpu vm c = { c with cpuOnly := vm.cpuOnly || c.cpuOnly } := by
  cases h : vm.cpuOnly <;> simp [upd_cpu, h]

theorem upd_file_eq (vm : Cmd) (c : Config) :
    upd_file vm c = { c with patternFileName := vm.patternFileName.getD c.patternFileName } := by
  cases h : vm.patternFileName <;> simp [upd_file, h]

theorem upd_start_eq (vm : Cmd) (c : Config) :
    upd_start vm c
      = { c with startPaused := if vm.start || !c.render then false else c.startPaused } := by
  by_cases h : (vm.start || !c.render) = true <;> simp [upd_start, h]

theorem upd_noDownsample_eq (vm : Cmd) (c : Config) :
    upd_noDownsample vm c
      = { c with noDownsample :=
            if vm.noDownsample || (c.width == c.cols && c.height == c.rows)
            then true else c.noDownsample } := by
  by_cases h : (vm.noDownsample || (c.width == c.cols && c.height == c.rows)) = true <;>
    simp [upd_noDownsample, h]

/-- Closed form of the whole assignment chain. -/
theorem load_cmd_assign_eq (vm : Cmd) :
    load_cmd_assign vm =
      { width := vm.width.getD 600
        height := vm.height.getD 600
        rows := vm.rows.getD 1200
        cols := vm.cols.getD 1200
        render := vm.render
        renderDelayMs := vm.renderDelayMs.getD 0
        fillProb := vm.fillProb.getD (2/10)
        virtualFillProb := vm.virtualFillProb.getD 0
        maxIterations := vm.maxIterations.getD 0
        cpuOnly := vm.cpuOnly
        patternFileName := vm.patternFileName.getD "random"
        startPaused := if vm.start || !vm.render then false else true
        noDownsample :=
          if vm.noDownsample ||
              (vm.width.getD 600 == vm.cols.getD 1200 &&
               vm.height.getD 600 == vm.rows.getD 1200)
          then true else false } := by
  simp only [load_cmd_assign, upd_width_eq, upd_height_eq, upd_rows_eq, upd_cols_eq,
    upd_render_eq, upd_delay_eq, upd_fillProb_eq, upd_virtualFillProb_eq, upd_max_eq,
    upd_cpu_eq, upd_file_eq, upd_start_eq, upd_noDownsample_eq, defaultConfig]
  simp

/-! ## Helper lemmas about `evolve` and the loop state machine -/

theorem evolve_foldl_fst (draw : Nat → Nat → Bool) (g : Grid) (b1 b2 : Bool)
    (l : List Nat) :
    ∀ (a : List Bool) (n1 n2 : Nat),
      (l.foldl (evolveStep draw g b1) (a, n1)).1
        = (l.foldl (evolveStep draw g b2) (a, n2)).1 := by
  induction l with
  | nil => intro a n1 n2; rfl
  | cons x xs ih =>
      intro a n1 n2
      simp only [List.foldl_cons, evolveStep]
      exact ih _ _ _

theorem evolve_fst_eq (draw : Nat → Nat → Bool) (g : Grid) (b1 b2 : Bool) :
    (evolve draw g b1).1 = (evolve draw g b2).1 := by
  simp only [evolve, Grid.mk.injEq, true_and]
  exact evolve_foldl_fst draw g b1 b2 _ _ _ _

theorem should_log_snd (s : LoopState) (now : Nat) :
    (should_log s now).2
      = { s with gIterationsPerSecond := s.iterations - s.gLastIterationCount } := by
  simp only [should_log]
  split <;> rfl

theorem should_log_fst (s : LoopState) (now : Nat) :
    (should_log s now).1 = true
      ↔ (0 < s.iterations - s.gLastIterationCount
          ∧ 1000000000 ≤ now - s.gLastPrintClock) := by
  by_cases h1 : s.iterations - s.gLastIterationCount ≤ 0 <;>
    by_cases h2 : now - s.gLastPrintClock < 1000000000 <;>
      simp [should_log, h1, h2] <;> omega

theorem logCheck_snd (bench : Bool) (s : LoopState) (now : Nat) :
    (logCheck bench s now).2
      = if bench then s
        else { s with gIterationsPerSecond := s.iterations - s.gLastIterationCount } := by
  cases bench <;> simp [logCheck, should_log_snd]

theorem logCheck_fst (bench : Bool) (s : LoopState) (now : Nat) :
    (logCheck bench s now).1 = (!bench && (should_log s now).1) := by
  cases bench <;> simp [logCheck]

theorem preLiveLogState_grid (bench : Bool) (draw : Nat → Nat → Nat → Bool)
    (i : StepInput) (s : LoopState) :
    (preLiveLogState bench draw i s).grid
      = (evolve (draw s.iterations) s.grid false).1 := by
  simp only [preLiveLogState, logCheck_snd]
  cases bench <;> simp <;> exact evolve_fst_eq _ _ _ _

theorem preLiveLogState_iterations (bench : Bool) (draw : Nat → Nat → Nat → Bool)
    (i : StepInput) (s : LoopState) :
    (preLiveLogState bench draw i s).iterations = s.iterations + 1 := by
  simp only [preLiveLogState, logCheck_snd]
  cases bench <;> simp

theorem preLiveLogState_gLooping (bench : Bool) (draw : Nat → Nat → Nat → Bool)
    (i : StepInput) (s : LoopState) :
    (preLiveLogState bench draw i s).gLooping = s.gLooping := by
  simp only [preLiveLogState, logCheck_snd]
  cases bench <;> simp

theorem preLiveLogState_gIterationsPerSecond (bench : Bool)
    (draw : Nat → Nat → Nat → Bool) (i : StepInput) (s : LoopState) :
    (preLiveLogState bench draw i s).gIterationsPerSecond
      = (logCheck bench s i.now).2.gIterationsPerSecond := by
  simp only [preLiveLogState, logCheck_snd]

theorem preLiveLogState_gLastIterationCount (bench : Bool)
    (draw : Nat → Nat → Nat → Bool) (i : StepInput) (s : LoopState) :
    (preLiveLogState bench draw i s).gLastIterationCount = s.gLastIterationCount := by
  simp only [preLiveLogState, logCheck_snd]
  cases bench <;> simp

theorem preLiveLogState_gLastPrintClock (bench : Bool)
    (draw : Nat → Nat → Nat → Bool) (i : StepInput) (s : LoopState) :
    (preLiveLogState bench draw i s).gLastPrintClock = s.gLastPrintClock := by
  simp only [preLiveLogState, logCheck_snd]
  cases bench <;> simp

theorem postLogState_grid (bench : Bool) (draw : Nat → Nat → Nat → Bool)
    (i : StepInput) (s : LoopState) :
    (postLogState bench draw i s).grid
      = (evolve (draw s.iterations) s.grid false).1 := by
  simp only [postLogState]
  split <;> simp [live_log, preLiveLogState_grid]

theorem postLogState_iterations (bench : Bool) (draw : Nat → Nat → Nat → Bool)
    (i : StepInput) (s : LoopState) :
    (postLogState bench draw i s).iterations = s.iterations + 1 := by
  simp only [postLogState]
  split <;> simp [live_log, preLiveLogState_iterations]

theorem postLogState_gLooping (bench : Bool) (draw : Nat → Nat → Nat → Bool)
    (i : StepInput) (s : LoopState) :
    (postLogState bench draw i s).gLooping = s.gLooping := by
  simp only [postLogState]
  split <;> simp [live_log, preLiveLogState_gLooping]

theorem loopStep_grid (bench : Bool) (maxIter : Nat) (draw : Nat → Nat → Nat → Bool)
    (i : StepInput) (s : LoopState) :
    (loopStep bench maxIter draw i s).grid
      = (evolve (draw s.iterations) s.grid false).1 := by
  have h := postLogState_grid bench draw i s
  simp only [loopStep]
  cases hd : i.sigDuring
  · rw [if_neg Bool.false_ne_true]
    split <;> simp [h]
  · rw [if_pos rfl]
    split <;> simp [sigint_handler, h]

theorem loopStep_iterations (bench : Bool) (maxIter : Nat)
    (draw : Nat → Nat → Nat → Bool) (i : StepInput) (s : LoopState) :
    (loopStep bench maxIter draw i s).iterations = s.iterations + 1 := by
  have h := postLogState_iterations bench draw i s
  simp only [loopStep]
  cases hd : i.sigDuring
  · rw [if_neg Bool.false_ne_true]
    split <;> simp [h]
  · rw [if_pos rfl]
    split <;> simp [sigint_handler, h]

theorem loopStep_gLooping_noSig (bench : Bool) (maxIter : Nat)
    (draw : Nat → Nat → Nat → Bool) (i : StepInput) (s : LoopState)
    (hs : s.gLooping = true) (hi : i.sigDuring = false) :
    (loopStep bench maxIter draw i s).gLooping
      = !(decide (0 < maxIter ∧ maxIter ≤ s.iterations + 1)) := by
  have h1 := postLogState_gLooping bench draw i s
  have h2 := postLogState_iterations bench draw i s
  simp only [loopStep]
  rw [hi, if_neg Bool.false_ne_true]
  by_cases hm : 0 < maxIter ∧ maxIter ≤ (postLogState bench draw i s).iterations
  · rw [if_pos (Or.inr hm)]
    rw [h2] at hm
    have hd2 : decide (0 < maxIter ∧ maxIter ≤ s.iterations + 1) = true := by
      rw [decide_eq_true_eq]; exact hm
    simp [hd2]
  · have hcond : ¬((!(postLogState bench draw i s).gLooping) = true
        ∨ (0 < maxIter ∧ maxIter ≤ (postLogState bench draw i s).iterations)) := by
      intro hor
      rcases hor with hft | hP
      · rw [h1, hs] at hft
        simp at hft
      · exact hm hP
    rw [if_neg hcond, h1, hs]
    rw [h2] at hm
    have hd2 : decide (0 < maxIter ∧ maxIter ≤ s.iterations + 1) = false := by
      rw [decide_eq_false_iff_not]; exact hm
    simp [hd2]

theorem loopStep_gLooping_sig (bench : Bool) (maxIter : Nat)
    (draw : Nat → Nat → Nat → Bool) (i : StepInput) (s : LoopState)
    (hi : i.sigDuring = true) :
    (loopStep bench maxIter draw i s).gLooping = false := by
  simp only [loopStep]
  rw [hi, if_pos rfl]
  split
  · rfl
  · rename_i hcond
    exact absurd (Or.inl (by simp [sigint_handler])) hcond

theorem sigint_handler_grid (s : LoopState) :
    (sigint_handler s).grid = s.grid := rfl

theorem sigint_handler_iterations (s : LoopState) :
    (sigint_handler s).iterations = s.iterations := rfl

theorem run_of_not_looping (bench : Bool) (maxIter : Nat)
    (draw : Nat → Nat → Nat → Bool) (l : List StepInput) (s : LoopState)
    (h : s.gLooping = false) :
    run bench maxIter draw l s = s := by
  cases l with
  | nil => rfl
  | cons i rest =>
      have hsig : sigint_handler s = s := by
        cases s
        simp_all [sigint_handler]
      simp only [run]
      cases hb : i.sigBefore <;> simp [hb, hsig, h]

theorem postLogState_gLastPrintClock (bench : Bool) (draw : Nat → Nat → Nat → Bool)
    (i : StepInput) (s : LoopState) :
    (postLogState bench draw i s).gLastPrintClock
      = (if (logCheck bench s i.now).1 then i.now else s.gLastPrintClock) := by
  simp only [postLogState]
  split <;> simp_all [live_log, preLiveLogState_gLastPrintClock]

theorem postLogState_gLastIterationCount (bench : Bool) (draw : Nat → Nat → Nat → Bool)
    (i : StepInput) (s : LoopState) :
    (postLogState bench draw i s).gLastIterationCount
      = (if (logCheck bench s i.now).1 then s.iterations + 1
         else s.gLastIterationCount) := by
  simp only [postLogState]
  split <;>
    simp_all [live_log, preLiveLogState_iterations, preLiveLogState_gLastIterationCount]

theorem loopStep_gLastPrintClock (bench : Bool) (maxIter : Nat)
    (draw : Nat → Nat → Nat → Bool) (i : StepInput) (s : LoopState) :
    (loopStep bench maxIter draw i s).gLastPrintClock
      = (postLogState bench draw i s).gLastPrintClock := by
  simp only [loopStep]
  cases hd : i.sigDuring
  · rw [if_neg Bool.false_ne_true]
    split <;> simp
  · rw [if_pos rfl]
    split <;> simp [sigint_handler]

theorem loopStep_gLastIterationCount (bench : Bool) (maxIter : Nat)
    (draw : Nat → Nat → Nat → Bool) (i : StepInput) (s : LoopState) :
    (loopStep bench maxIter draw i s).gLastIterationCount
      = (postLogState bench draw i s).gLastIterationCount := by
  simp only [loopStep]
  cases hd : i.sigDuring
  · rw [if_neg Bool.false_ne_true]
    split <;> simp
  · rw [if_pos rfl]
    split <;> simp [sigint_handler]

/-- Every terminated or in-progress run has advanced the grid by exactly as
many whole generations as the iteration counter recorded, whatever the
interrupt schedule. -/
theorem run_whole_generations (bench : Bool) (maxIter : Nat)
    (draw : Nat → Nat → Nat → Bool) (l : List StepInput) :
    ∀ s : LoopState,
      s.iterations ≤ (run bench maxIter draw l s).iterations
      ∧ (run bench maxIter draw l s).grid
          = evolveIter draw s.iterations
              ((run bench maxIter draw l s).iterations - s.iterations) s.grid := by
  induction l with
  | nil => intro s; simp [run, evolveIter]
  | cons i rest ih =>
      intro s
      have key : ∀ t : LoopState, t.grid = s.grid → t.iterations = s.iterations →
          s.iterations ≤ (if t.gLooping
              then run bench maxIter draw rest (loopStep bench maxIter draw i t)
              else t).iterations
          ∧ (if t.gLooping
              then run bench maxIter draw rest (loopStep bench maxIter draw i t)
              else t).grid
            = evolveIter draw s.iterations
                ((if t.gLooping
                  then run bench maxIter draw rest (loopStep bench maxIter draw i t)
                  else t).iterations - s.iterations) s.grid := by
        intro t htg hti
        by_cases hl : t.gLooping = true
        · rw [if_pos hl]
          rcases ih (loopStep bench maxIter draw i t) with ⟨ih1, ih2⟩
          rw [loopStep_iterations] at ih1 ih2
          constructor
          · omega
          · rw [ih2, loopStep_grid, htg, hti]
            have hn : (run bench maxIter draw rest
                  (loopStep bench maxIter draw i t)).iterations - s.iterations
                = ((run bench maxIter draw rest
                    (loopStep bench maxIter draw i t)).iterations
                    - (s.iterations + 1)) + 1 := by omega
            rw [hn]
            rfl
        · rw [if_neg hl]
          refine ⟨by omega, ?_⟩
          rw [htg, hti]
          simp [evolveIter]
      by_cases hb : i.sigBefore = true
      · have h := key (sigint_handler s) rfl rfl
        simpa [run, hb] using h
      · have h := key s rfl rfl
        simpa [run, hb] using h

/-- With a positive iteration bound and no interrupts, a run long enough
stops with `gLooping = false` exactly when the counter reaches the bound. -/
theorem run_reaches_max (bench : Bool) (maxIter : Nat)
    (draw : Nat → Nat → Nat → Bool) (l : List StepInput) :
    ∀ s : LoopState,
      (∀ j ∈ l, j.sigBefore = false ∧ j.sigDuring = false) →
      0 < maxIter → s.gLooping = true → s.iterations < maxIter →
      maxIter - s.iterations ≤ l.length →
      (run bench maxIter draw l s).gLooping = false
      ∧ (run bench maxIter draw l s).iterations = maxIter := by
  induction l with
  | nil =>
      intro s _ hm _ hlt hlen
      simp at hlen
      omega
  | cons i rest ih =>
      intro s hsig hm hl hlt hlen
      obtain ⟨hib, hid⟩ := hsig i (List.mem_cons_self i rest)
      have hrest : ∀ j ∈ rest, j.sigBefore = false ∧ j.sigDuring = false :=
        fun j hj => hsig j (List.mem_cons_of_mem i hj)
      rw [show run bench maxIter draw (i :: rest) s
          = run bench maxIter draw rest (loopStep bench maxIter draw i s) from by
        simp [run, hib, hl]]
      have hti := loopStep_iterations bench maxIter draw i s
      have htl := loopStep_gLooping_noSig bench maxIter draw i s hl hid
      by_cases hreach : maxIter ≤ s.iterations + 1
      · have hp : (0 < maxIter ∧ maxIter ≤ s.iterations + 1) := ⟨hm, hreach⟩
        have hfl : (loopStep bench maxIter draw i s).gLooping = false := by
          rw [htl, decide_eq_true hp]
          rfl
        rw [run_of_not_looping bench maxIter draw rest _ hfl]
        exact ⟨hfl, by omega⟩
      · have hfl : (loopStep bench maxIter draw i s).gLooping = true := by
          rw [htl, decide_eq_false (fun hc => hreach hc.2)]
          rfl
        have hlen2 : maxIter - (loopStep bench maxIter draw i s).iterations
            ≤ rest.length := by
          simp at hlen
          omega
        exact ih (loopStep bench maxIter draw i s) hrest hm hfl (by omega) hlen2

/-- With `maxIterations = 0` and no interrupts, the loop never stops on its
own: every scheduled iteration executes. -/
theorem run_no_bound (bench : Bool) (draw : Nat → Nat → Nat → Bool)
    (l : List StepInput) :
    ∀ s : LoopState,
      (∀ j ∈ l, j.sigBefore = false ∧ j.sigDuring = false) →
      s.gLooping = true →
      (run bench 0 draw l s).gLooping = true
      ∧ (run bench 0 draw l s).iterations = s.iterations + l.length := by
  induction l with
  | nil => intro s _ hl; simpa [run] using hl
  | cons i rest ih =>
      intro s hsig hl
      obtain ⟨hib, hid⟩ := hsig i (List.mem_cons_self i rest)
      have hrest : ∀ j ∈ rest, j.sigBefore = false ∧ j.sigDuring = false :=
        fun j hj => hsig j (List.mem_cons_of_mem i hj)
      rw [show run bench 0 draw (i :: rest) s
          = run bench 0 draw rest (loopStep bench 0 draw i s) from by
        simp [run, hib, hl]]
      have hti := loopStep_iterations bench 0 draw i s
      have hfl : (loopStep bench 0 draw i s).gLooping = true := by
        rw [loopStep_gLooping_noSig bench 0 draw i s hl hid,
          decide_eq_false (fun hc => Nat.lt_irrefl 0 hc.1)]
        rfl
      rcases ih (loopStep bench 0 draw i s) hrest hfl with ⟨g1, g2⟩
      refine ⟨g1, ?_⟩
      rw [g2, hti]
      simp
      omega

/-! ## Claim theorems -/

/-- C1: for every grid state and per-cell noise outcome, `evolve` with
`countAlive` enabled and disabled produce identical resulting grid
contents; in particular the driver's passing of `logEnabled` as the
`countAlive` argument (`src/main.cpp` line 196) never changes the grid a
loop iteration produces. -/
theorem evolve_countAlive_observational_equivalence :
    (∀ (draw : Nat → Nat → Bool) (g : Grid) (b1 b2 : Bool),
        (evolve draw g b1).1 = (evolve draw g b2).1)
    ∧ (∀ (bench : Bool) (maxIter : Nat) (draw : Nat → Nat → Nat → Bool)
        (i : StepInput) (s : LoopState) (b : Bool),
        (loopStep bench maxIter draw i s).grid
          = (evolve (draw s.iterations) s.grid b).1) := by
  constructor
  · exact evolve_fst_eq
  · intro bench maxIter draw i s b
    rw [loopStep_grid]
    exact evolve_fst_eq _ _ _ _

/-- C2: the SIGINT handler writes only the `gLooping` flag of the driver
state, and for every interrupt schedule the loop's final grid is exactly a
whole number of generations of the initial grid (matching the iteration
counter), so the loop never exits with a generation in flight and the grid
is never observed partially updated. -/
theorem sigint_boundary_only :
    (∀ s : LoopState, sigint_handler s = { s with gLooping := false })
    ∧ (∀ (bench : Bool) (maxIter : Nat) (draw : Nat → Nat → Nat → Bool)
        (l : List StepInput) (s : LoopState),
        s.iterations ≤ (run bench maxIter draw l s).iterations
        ∧ (run bench maxIter draw l s).grid
            = evolveIter draw s.iterations
                ((run bench maxIter draw l s).iterations - s.iterations) s.grid) :=
  ⟨fun _ => rfl, fun bench maxIter draw l s => run_whole_generations bench maxIter draw l s⟩

/-- C3: with `maxIterations > 0` a boundary check clears `gLooping` exactly
when the just-incremented counter has reached the bound, an uninterrupted
run long enough stops with the counter equal to the bound, and with
`maxIterations = 0` (the default) an uninterrupted run never stops: no
other timeout-like mechanism exists. -/
theorem max_iterations_termination :
    (∀ (bench : Bool) (maxIter : Nat) (draw : Nat → Nat → Nat → Bool)
        (i : StepInput) (s : LoopState),
        s.gLooping = true → i.sigDuring = false → 0 < maxIter →
        ((loopStep bench maxIter draw i s).gLooping = false
          ↔ maxIter ≤ s.iterations + 1))
    ∧ (∀ (bench : Bool) (maxIter : Nat) (draw : Nat → Nat → Nat → Bool)
        (l : List StepInput) (s : LoopState),
        (∀ j ∈ l, j.sigBefore = false ∧ j.sigDuring = false) →
        0 < maxIter → s.gLooping = true → s.iterations < maxIter →
        maxIter - s.iterations ≤ l.length →
        (run bench maxIter draw l s).gLooping = false
        ∧ (run bench maxIter draw l s).iterations = maxIter)
    ∧ (∀ (bench : Bool) (draw : Nat → Nat → Nat → Bool)
        (l : List StepInput) (s : LoopState),
        (∀ j ∈ l, j.sigBefore = false ∧ j.sigDuring = false) →
        s.gLooping = true →
        (run bench 0 draw l s).gLooping = true
        ∧ (run bench 0 draw l s).iterations = s.iterations + l.length) := by
  refine ⟨?_, fun b m d l s => run_reaches_max b m d l s,
    fun b d l s => run_no_bound b d l s⟩
  intro bench maxIter draw i s hl hid hm
  rw [loopStep_gLooping_noSig bench maxIter draw i s hl hid]
  constructor
  · intro h
    by_contra hc
    rw [decide_eq_false (fun hp => hc hp.2)] at h
    simp at h
  · intro h
    rw [decide_eq_true ⟨hm, h⟩]
    rfl

/-- C3 witness: a concrete uninterrupted run with `maxIterations = 2` from
a fresh 1-by-1 grid stops with `gLooping = false` after exactly 2
iterations. -/
theorem max_iterations_termination_witness :
    (∀ j ∈ [(⟨0, 0, false, false⟩ : StepInput), ⟨0, 0, false, false⟩],
        j.sigBefore = false ∧ j.sigDuring = false)
    ∧ (run false 2 (fun _ _ _ => false)
        [⟨0, 0, false, false⟩, ⟨0, 0, false, false⟩]
        ⟨⟨1, 1, [false]⟩, 0, true, 0, 0, 0, 0⟩).gLooping = false
    ∧ (run false 2 (fun _ _ _ => false)
        [⟨0, 0, false, false⟩, ⟨0, 0, false, false⟩]
        ⟨⟨1, 1, [false]⟩, 0, true, 0, 0, 0, 0⟩).iterations = 2 := by
  have h := max_iterations_termination.2.1 false 2 (fun _ _ _ => false)
    [⟨0, 0, false, false⟩, ⟨0, 0, false, false⟩]
    ⟨⟨1, 1, [false]⟩, 0, true, 0, 0, 0, 0⟩
    (by decide) (by decide) (by decide) (by decide) (by decide)
  exact ⟨by decide, h.1, h.2⟩

/-- C4 counterexample: the claim that configuration loading rejects invalid
dimensions or out-of-range probabilities is false — a command line with
`rows = 0`, `cols = 0` and `fill-probability = 2` is accepted by
`load_cmd`. -/
theorem config_validation_counterexample :
    ¬ (∀ (vm : Cmd) (c : Config), load_cmd vm = some c →
        (0 < c.rows ∧ 0 < c.cols ∧ 0 ≤ c.fillProb ∧ c.fillProb ≤ 1
          ∧ 0 ≤ c.virtualFillProb ∧ c.virtualFillProb ≤ 1)) := by
  intro h
  have h0 := h { emptyCmd with rows := some 0, cols := some 0, fillProb := some 2 }
    (load_cmd_assign { emptyCmd with rows := some 0, cols := some 0, fillProb := some 2 })
    rfl
  revert h0
  decide

/-- C4 amended: `load_cmd` performs no validation at all — for every
non-`--help` command line it succeeds and stores the supplied dimensions
and probabilities verbatim (zero sizes and out-of-range probabilities
included). -/
theorem config_no_validation :
    ∀ vm : Cmd, vm.help = false →
      load_cmd vm = some (load_cmd_assign vm)
      ∧ (load_cmd_assign vm).rows = vm.rows.getD 1200
      ∧ (load_cmd_assign vm).cols = vm.cols.getD 1200
      ∧ (load_cmd_assign vm).fillProb = vm.fillProb.getD (2/10)
      ∧ (load_cmd_assign vm).virtualFillProb = vm.virtualFillProb.getD 0 := by
  intro vm h
  refine ⟨by simp [load_cmd, h], ?_, ?_, ?_, ?_⟩ <;> simp [load_cmd_assign_eq]

/-- C4 witness: the amended statement at a concrete invalid command line
(`rows = 0`). -/
theorem config_no_validation_witness :
    load_cmd { emptyCmd with rows := some 0 }
      = some (load_cmd_assign { emptyCmd with rows := some 0 })
    ∧ (load_cmd_assign { emptyCmd with rows := some 0 }).rows = 0 := by
  have h := config_no_validation { emptyCmd with rows := some 0 } rfl
  exact ⟨h.1, by rw [h.2.1]; rfl⟩

/-- C5 counterexample: the claim that the driver loop does not itself
mutate the iteration counter is false — one call of `loop` on a fresh
state increments `stats::iterations` from 0 to 1 in the driver itself
(`src/main.cpp` line 197). -/
theorem iterations_driver_write_counterexample :
    ¬ (∀ (bench : Bool) (maxIter : Nat) (draw : Nat → Nat → Nat → Bool)
        (i : StepInput) (s : LoopState),
        (loopStep bench maxIter draw i s).iterations = s.iterations) := by
  intro h
  have h0 := h true 0 (fun _ _ _ => false) ⟨0, 0, false, false⟩
    ⟨⟨1, 1, [false]⟩, 0, true, 0, 0, 0, 0⟩
  revert h0
  decide

/-- C5 amended: `stats::iterations` is written by the driver loop itself —
every call of `loop` increments it by exactly one (after the `evolve`
call), while the modelled engine's `evolve` neither reads nor writes it
(its result depends only on the grid and the noise draws). -/
theorem iterations_driver_increment :
    ∀ (bench : Bool) (maxIter : Nat) (draw : Nat → Nat → Nat → Bool)
      (i : StepInput) (s : LoopState),
      (loopStep bench maxIter draw i s).iterations = s.iterations + 1 :=
  loopStep_iterations

/-- C6: `gIterationsPerSecond` is recomputed by `should_log` as
`stats::iterations - gLastIterationCount`; `should_log` reports `true`
exactly when at least one iteration happened since the baseline and at
least one second elapsed since `gLastPrintClock`; `live_log` resets the
baseline and the clock; and within a loop iteration the baseline and clock
are reset exactly when logging was enabled. -/
theorem throughput_trailing_window :
    (∀ (s : LoopState) (now : Nat),
        (should_log s now).2.gIterationsPerSecond
          = s.iterations - s.gLastIterationCount)
    ∧ (∀ (s : LoopState) (now : Nat),
        (should_log s now).1 = true
          ↔ (0 < s.iterations - s.gLastIterationCount
              ∧ 1000000000 ≤ now - s.gLastPrintClock))
    ∧ (∀ (s : LoopState) (now : Nat),
        (live_log s now).1.gLastIterationCount = s.iterations
        ∧ (live_log s now).1.gLastPrintClock = now
        ∧ (live_log s now).1.gNsBetweenSeconds = 0)
    ∧ (∀ (bench : Bool) (maxIter : Nat) (draw : Nat → Nat → Nat → Bool)
        (i : StepInput) (s : LoopState),
        (loopStep bench maxIter draw i s).gLastPrintClock
          = (if (logCheck bench s i.now).1 then i.now else s.gLastPrintClock)
        ∧ (loopStep bench maxIter draw i s).gLastIterationCount
          = (if (logCheck bench s i.now).1 then s.iterations + 1
             else s.gLastIterationCount)) := by
  refine ⟨?_, should_log_fst, ?_, ?_⟩
  · intro s now
    rw [should_log_snd]
  · intro s now
    exact ⟨rfl, rfl, rfl⟩
  · intro bench maxIter draw i s
    rw [loopStep_gLastPrintClock, loopStep_gLastIterationCount,
      postLogState_gLastPrintClock, postLogState_gLastIterationCount]
    exact ⟨rfl, rfl⟩

/-- C7: `load_pattern` runs exactly once at startup, strictly before the
evolution loop begins, if and only if the configured pattern file name
differs from the default value `"random"`; with no `--file` option the
name stays `"random"` and no pattern is loaded. -/
theorem pattern_loaded_once_at_startup :
    (∀ c : Config,
        ((mainStartup c).count (MainEvent.loadPatternEv c.patternFileName)
          = if c.patternFileName = "random" then 0 else 1)
        ∧ (mainStartup c).getLast? = some MainEvent.loopStartEv)
    ∧ (∀ vm : Cmd,
        (load_cmd_assign { vm with patternFileName := none }).patternFileName
          = "random") := by
  constructor
  · intro c
    by_cases h : c.patternFileName = "random" <;>
      simp [mainStartup, h]
  · intro vm
    simp [load_cmd_assign_eq]

/-- C8: downsampling is disabled exactly when the `--no-downsample` flag is
passed or the configured window resolution matches the grid exactly
(`width == cols && height == rows`); otherwise `noDownsample` stays
false. -/
theorem noDownsample_iff :
    ∀ (vm : Cmd) (c : Config), load_cmd vm = some c →
      (c.noDownsample = true
        ↔ (vm.noDownsample = true ∨ (c.width = c.cols ∧ c.height = c.rows))) := by
  intro vm c h
  rw [load_cmd] at h
  by_cases hh : vm.help = true
  · simp [hh] at h
  · simp only [hh, if_false] at h
    simp at h
    subst h
    rw [load_cmd_assign_eq]
    cases hnd : vm.noDownsample <;> simp [hnd]

/-- C8 witness: the default command line (no flags) yields
`noDownsample = false`, and the characterization holds there. -/
theorem noDownsample_iff_witness :
    load_cmd emptyCmd = some (load_cmd_assign emptyCmd)
    ∧ ((load_cmd_assign emptyCmd).noDownsample = true
        ↔ (emptyCmd.noDownsample = true
            ∨ ((load_cmd_assign emptyCmd).width = (load_cmd_assign emptyCmd).cols
               ∧ (load_cmd_assign emptyCmd).height = (load_cmd_assign emptyCmd).rows))) :=
  ⟨rfl, noDownsample_iff emptyCmd (load_cmd_assign emptyCmd) rfl⟩

/-- C9: whenever a loop iteration enables logging (so `live_log` will run),
the state handed to `live_log` has `gIterationsPerSecond > 0`, so the
division `gNsBetweenSeconds / gIterationsPerSecond` in `live_log`
(`src/main.cpp` line 247) never divides by zero. -/
theorem live_log_divisor_positive :
    ∀ (bench : Bool) (draw : Nat → Nat → Nat → Bool) (i : StepInput)
      (s : LoopState),
      (logCheck bench s i.now).1 = true →
      0 < (preLiveLogState bench draw i s).gIterationsPerSecond := by
  intro bench draw i s h
  rw [preLiveLogState_gIterationsPerSecond, logCheck_snd]
  rw [logCheck_fst] at h
  cases bench
  · simp only [Bool.not_false, Bool.true_and] at h
    rw [should_log_fst] at h
    simp
    omega
  · simp at h

/-- C9 witness: a concrete logging-enabled iteration (2 iterations since
the baseline, one full second elapsed) has a positive divisor. -/
theorem live_log_divisor_positive_witness :
    (logCheck false (⟨⟨1, 1, [false]⟩, 2, true, 0, 0, 0, 0⟩ : LoopState)
        1000000000).1 = true
    ∧ 0 < (preLiveLogState false (fun _ _ _ => false)
        ⟨1000000000, 0, false, false⟩
        ⟨⟨1, 1, [false]⟩, 2, true, 0, 0, 0, 0⟩).gIterationsPerSecond :=
  ⟨by decide,
   live_log_divisor_positive false (fun _ _ _ => false)
     ⟨1000000000, 0, false, false⟩
     ⟨⟨1, 1, [false]⟩, 2, true, 0, 0, 0, 0⟩ (by decide)⟩

/-- C10: `startPaused` ends up false exactly when `--start` was passed or
rendering is disabled; with rendering enabled and no `--start` the run
starts paused. -/
theorem startPaused_iff :
    ∀ (vm : Cmd) (c : Config), load_cmd vm = some c →
      (c.startPaused = false ↔ (vm.start = true ∨ c.render = false)) := by
  intro vm c h
  rw [load_cmd] at h
  by_cases hh : vm.help = true
  · simp [hh] at h
  · simp only [hh, if_false] at h
    simp at h
    subst h
    rw [load_cmd_assign_eq]
    cases hs : vm.start <;> cases hr : vm.render <;> simp

/-- C10 witness: the default command line (headless, no `--start`) starts
unpaused, as the right-hand side's `render = false` disjunct requires. -/
theorem startPaused_iff_witness :
    load_cmd emptyCmd = some (load_cmd_assign emptyCmd)
    ∧ ((load_cmd_assign emptyCmd).startPaused = false
        ↔ (emptyCmd.start = true ∨ (load_cmd_assign emptyCmd).render = false)) :=
  ⟨rfl, startPaused_iff emptyCmd (load_cmd_assign emptyCmd) rfl⟩

end Cellular
